import Mathlib

/-!
Verification of the "Lab material for Unsupervised Learning" notebooks.

The repository consists of four Jupyter notebooks (K-Means clustering,
self-organizing map, PCA / t-SNE dimensionality reduction, and a PyTorch
autoencoder) plus a README.  The notebooks' own code is straight-line glue
over external libraries; the only original definition is the `Autoencoder`
subclass of `nn.Module`.  We embed that class and the notebooks' dataflow,
cell traces and constants, and model the external library interfaces
(scikit-learn, SimpSOM, torch) from the specification where their code is
not part of this repository.

Real numbers in the notebooks are floating point; the embedding uses `ℚ`,
so the theorems speak about the exact-arithmetic semantics of the code.

The file lists all definitions first and all theorems after them.
-/

/-! # Definitions -/

/-! ## The `Autoencoder` network (autoencoder notebook, class `Autoencoder`)

The source defines four `nn.Linear` layers
`enc1 : 64→32`, `enc2 : 32→10`, `dec1 : 10→32`, `dec2 : 32→64`,
a `forward` that applies all four with `F.relu` after each, and a
`features` method that applies only the two encoder layers with `F.relu`
after each. -/

/-- Rectified linear unit, `F.relu` from the source. -/
def relu (q : ℚ) : ℚ := max q 0

/-- A fully connected `nn.Linear` layer with `nIn` input features and
`nOut` output features: a weight matrix and a bias vector. -/
structure Linear (nIn nOut : ℕ) where
  weight : Fin nOut → Fin nIn → ℚ
  bias : Fin nOut → ℚ

/-- Applying a linear layer: the affine map `W x + b`. -/
def Linear.apply {nIn nOut : ℕ} (l : Linear nIn nOut) (x : Fin nIn → ℚ) :
    Fin nOut → ℚ :=
  fun i => (Finset.univ.sum fun j => l.weight i j * x j) + l.bias i

/-- Componentwise ReLU on a vector. -/
def reluVec {n : ℕ} (x : Fin n → ℚ) : Fin n → ℚ := fun i => relu (x i)

/-- The input-feature count of a layer, made explicit as a number. -/
def Linear.inFeatures {nIn nOut : ℕ} (_ : Linear nIn nOut) : ℕ := nIn

/-- The output-feature count of a layer, made explicit as a number. -/
def Linear.outFeatures {nIn nOut : ℕ} (_ : Linear nIn nOut) : ℕ := nOut

/-- The `Autoencoder` module from the source: two encoder layers and two
decoder layers with the fixed widths 64→32→10→32→64. -/
structure Autoencoder where
  enc1 : Linear 64 32
  enc2 : Linear 32 10
  dec1 : Linear 10 32
  dec2 : Linear 32 64

/-- One evaluation step of the network: a linear layer followed by the
rectified-linear activation, `x = F.relu(self.layer(x))` in the source. -/
def layerStep {nIn nOut : ℕ} (l : Linear nIn nOut) (x : Fin nIn → ℚ) :
    Fin nOut → ℚ :=
  reluVec (l.apply x)

/-- `Autoencoder.forward` from the source: ReLU after `enc1`, `enc2`,
`dec1` and `dec2`, in that order. -/
def Autoencoder.forward (net : Autoencoder) (x : Fin 64 → ℚ) : Fin 64 → ℚ :=
  reluVec (net.dec2.apply (reluVec (net.dec1.apply
    (reluVec (net.enc2.apply (reluVec (net.enc1.apply x)))))))

/-- `Autoencoder.features` from the source: ReLU after `enc1` and `enc2`. -/
def Autoencoder.features (net : Autoencoder) (x : Fin 64 → ℚ) : Fin 10 → ℚ :=
  reluVec (net.enc2.apply (reluVec (net.enc1.apply x)))

/-! ## The autoencoder training loop (autoencoder notebook, training cell)

The source fixes `BS = 512`, `EPOCHS = 300`, `LR = 1e-3`, builds
`criterion = nn.MSELoss()` and `optimizer = optim.Adam(net.parameters(),
lr=LR)`, and then runs

    for epoch in range(EPOCHS):
        running_loss = 0.0
        for batch in trainloader:
            ... outputs = net(batch); loss = criterion(outputs, batch) ...
        loss = running_loss / len(trainloader)
        train_loss.append(loss)

The autograd/Adam parameter update lives in the external torch library;
it is represented by an abstract update function, while the loop
structure, the recorded loss values and the constants come from the
source. -/

/-- `BS` from the source. -/
def BS : ℕ := 512

/-- `EPOCHS` from the source. -/
def EPOCHS : ℕ := 300

/-- `LR` from the source (`1e-3` as an exact rational). -/
def LR : ℚ := 1 / 1000

/-- `nn.MSELoss()` applied to a prediction and a target of `n` features:
the mean of the squared componentwise differences. -/
def mseLoss {n : ℕ} (pred target : Fin n → ℚ) : ℚ :=
  (Finset.univ.sum fun i => (pred i - target i) ^ 2) / n

/-- Modelled from the spec: one pass of the inner batch loop body.  The
external Adam optimizer's parameter update (`loss.backward()`;
`optimizer.step()`) is the abstract `adamUpdate`; the loss value the body
adds to `running_loss` is, as in the source, the mean-squared error
between the network output `net(batch)` and the batch itself. -/
def adamBatchStep (adamUpdate : Autoencoder → (Fin 64 → ℚ) → Autoencoder)
    (net : Autoencoder) (batch : Fin 64 → ℚ) : Autoencoder × ℚ :=
  (adamUpdate net batch, mseLoss (net.forward batch) batch)

/-- One epoch of the training loop: fold the step over the batches
accumulating `running_loss`, then divide by `len(trainloader)`. -/
def runEpoch {S B : Type} (step : S → B → S × ℚ) (batches : List B)
    (s : S) : S × ℚ :=
  let r := batches.foldl
    (fun acc b => ((step acc.1 b).1, acc.2 + (step acc.1 b).2)) (s, 0)
  (r.1, r.2 / (batches.length : ℚ))

/-- The outer loop `for epoch in range(EPOCHS)`: each iteration runs one
epoch and appends its averaged loss to `train_loss`. -/
def trainLoop {S B : Type} (step : S → B → S × ℚ) (batches : List B)
    (s0 : S) : S × List ℚ :=
  (List.range EPOCHS).foldl
    (fun acc _ =>
      ((runEpoch step batches acc.1).1,
        acc.2 ++ [(runEpoch step batches acc.1).2]))
    (s0, [])

/-! ## K-Means clustering (handwritten_digit_clustering notebook)

The notebook builds `KMeans(n_clusters=10, n_init=50, max_iter=100)`,
fits it on `X_train` and calls `predict` on `X_test`.  The clustering
algorithm itself is scikit-learn code, not part of this repository; its
interface is modelled from the spec. -/

/-- Modelled from the spec: the configuration of the scikit-learn
clustering model — cluster count, number of restarts, iteration cap. -/
structure KMeansConfig where
  n_clusters : ℕ
  n_init : ℕ
  max_iter : ℕ
deriving DecidableEq

/-- The clustering object constructed in the notebook:
`KMeans(n_clusters=10, n_init=50, max_iter=100)`. -/
def kmeans_obj : KMeansConfig := ⟨10, 50, 100⟩

/-- Squared Euclidean distance between two feature vectors. -/
def sqDist {n : ℕ} (a b : Fin n → ℚ) : ℚ :=
  Finset.univ.sum fun i => (a i - b i) ^ 2

/-- Modelled from the spec: the integer cluster label of a sample is the
index of the nearest of the `k` fitted centroids (0 when `k = 0`). -/
def nearestLabel {k : ℕ} (cent : Fin k → Fin 64 → ℚ) (x : Fin 64 → ℚ) : ℕ :=
  (((List.finRange k).foldl
    (fun best c =>
      match best with
      | none => some c
      | some b => if sqDist (cent c) x < sqDist (cent b) x then some c
          else some b)
    none).map Fin.val).getD 0

/-- Modelled from the spec: `predict` on a fitted clustering model with
centroids `cent` returns one integer cluster label per sample. -/
def kmeansPredict {k : ℕ} (cent : Fin k → Fin 64 → ℚ)
    (samples : List (Fin 64 → ℚ)) : List ℕ :=
  samples.map (nearestLabel cent)

/-- A concrete fitted state used to witness the K-Means theorem. -/
def centWitness : Fin kmeans_obj.n_clusters → Fin 64 → ℚ :=
  fun c _ => (c : ℚ)

/-- A concrete one-sample test set. -/
def xTestWitness : List (Fin 64 → ℚ) := [fun _ => 0]

/-! ## Self-organizing map (Handwritten Digits Clustering by SOM notebook)

The notebook runs `net = somNet(20, 20, X_train)`, `net.train(0.01,
10000)`, `net.save('filename_weights')`, and later
`net.project(X_train)` and `net.project(X_test)`.  The SimpSOM library
is external; its interface is modelled from the spec. -/

/-- Modelled from the spec: a SimpSOM network is a grid of `h × w`
nodes, each holding a weight vector of the input dimension (64, the
feature count of the training set passed to the constructor). -/
structure SomNet (h w : ℕ) where
  weights : Fin h → Fin w → Fin 64 → ℚ

/-- Modelled from the spec: the grid node whose weight vector is nearest
to an input sample, found by scanning all grid nodes. -/
def SomNet.bestNode {h w : ℕ} (net : SomNet h w) (x : Fin 64 → ℚ) :
    Option (Fin h × Fin w) :=
  ((List.finRange h).foldr
    (fun i acc => ((List.finRange w).map fun j => (i, j)) ++ acc) []).foldl
    (fun best c =>
      match best with
      | none => some c
      | some b =>
          if sqDist (net.weights c.1 c.2) x < sqDist (net.weights b.1 b.2) x
          then some c else some b)
    none

/-- Modelled from the spec: the 2-D coordinate of the best-matching node
of an input sample. -/
def SomNet.bmu {h w : ℕ} (net : SomNet h w) (x : Fin 64 → ℚ) : ℕ × ℕ :=
  match net.bestNode x with
  | some c => (c.1.val, c.2.val)
  | none => (0, 0)

/-- Modelled from the spec: `project` maps each input sample to the 2-D
coordinate of its best-matching node. -/
def SomNet.project {h w : ℕ} (net : SomNet h w)
    (samples : List (Fin 64 → ℚ)) : List (ℕ × ℕ) :=
  samples.map net.bmu

/-- The SOM grid height used by the notebook (`somNet(20, 20, X_train)`). -/
def somGridHeight : ℕ := 20

/-- The SOM grid width used by the notebook. -/
def somGridWidth : ℕ := 20

/-- The SOM-model operations the notebook issues after construction. -/
inductive SomAction where
  | train (lr : ℚ) (epochs : ℕ)
  | save (name : String)
deriving DecidableEq

/-- Whether an action is a weight-save call. -/
def SomAction.isSave : SomAction → Bool
  | .save _ => true
  | _ => false

/-- The training/persistence cell of the SOM notebook, in source order:
`net.train(0.01, 10000)` then `net.save('filename_weights')`. -/
def somTrainingCell : List SomAction :=
  [SomAction.train (1 / 100) 10000, SomAction.save "filename_weights"]

/-- The weight-save calls appearing anywhere in each notebook of the
repository, in source order: the PCA/t-SNE notebook, the K-Means
notebook, the autoencoder notebook have none; the SOM notebook has the
single `net.save('filename_weights')`. -/
def repoSaveCalls : List String := ([] : List String) ++ [] ++ [] ++
  (somTrainingCell.filterMap fun a =>
    match a with
    | .save n => some n
    | _ => none)

/-- A concrete SOM state used to witness the SOM theorem. -/
def somNetWitness : SomNet somGridHeight somGridWidth :=
  ⟨fun _ _ _ => 0⟩

/-- A concrete one-sample input used to witness the SOM theorem. -/
def somSamplesWitness : List (Fin 64 → ℚ) := [fun _ => 1]

/-! ## Dimensionality-reduction notebook (Lab 2, PCA vs. t-SNE)

The notebook loads `X, y = load_digits(...)`, rebinds `X = scale(X)`,
and then computes `X_reduced_pca = PCA(n_components=2).fit_transform(X)`
and `X_reduced_tsne = TSNE(n_components=2).fit_transform(X)`.  The
scaling, PCA and t-SNE routines are external scikit-learn code; they
appear as abstract functions, while the dataflow between their calls is
taken from the source. -/

/-- The values the Lab 2 notebook computes. -/
structure Lab2Result (M : Type) where
  scaled : M
  reducedPCA : M
  reducedTSNE : M

/-- The straight-line dataflow of the Lab 2 notebook: `X = scale(X)`
rebinds `X` to the z-scored matrix before either `fit_transform` call,
and both reductions are configured with `n_components = 2`. -/
def lab2Run {M : Type} (scale : M → M) (pcaFitTransform : ℕ → M → M)
    (tsneFitTransform : ℕ → M → M) (X0 : M) : Lab2Result M :=
  let X := X0
  let X := scale X
  let xReducedPca := pcaFitTransform 2 X
  let xReducedTsne := tsneFitTransform 2 X
  ⟨X, xReducedPca, xReducedTsne⟩

/-- The kinds of operations a Lab 2 notebook cell performs. -/
inductive Lab2Op where
  | loadData
  | preprocess
  | fitModel
  | plot
deriving DecidableEq

/-- The operations of the Lab 2 notebook's code cells, in cell order:
load + plot, scale + plot, PCA fit-transform + plot, t-SNE
fit-transform + plot. -/
def lab2CellOps : List Lab2Op :=
  [Lab2Op.loadData, Lab2Op.plot,
   Lab2Op.preprocess, Lab2Op.plot,
   Lab2Op.fitModel, Lab2Op.plot,
   Lab2Op.fitModel, Lab2Op.plot]

/-- A concrete scaling function used to witness the Lab 2 theorem. -/
def lab2ScaleWitness : ℕ → ℕ := fun n => n + 1

/-- A concrete reduction function standing in for PCA in the Lab 2
witness. -/
def lab2PcaWitness : ℕ → ℕ → ℕ := fun k n => k * n

/-- A concrete reduction function standing in for t-SNE in the Lab 2
witness. -/
def lab2TsneWitness : ℕ → ℕ → ℕ := fun k n => k + n

/-! ## Train/test split (all three data-handling notebooks)

`train_test_split(X, y, test_size=t)` is scikit-learn code, not part of
this repository.  Modelled from the spec: the utility shuffles the
label-paired samples and partitions the shuffled list, giving the test
set its first `t` elements and the training set the rest. -/

/-- Modelled from the spec: partition an (already shuffled) list of
label-paired samples into a training set and a test set of the desired
test size `t`; returns `(train, test)`. -/
def trainTestSplit {α : Type} (shuffled : List α) (t : ℕ) :
    List α × List α :=
  (shuffled.drop t, shuffled.take t)

/-- A concrete two-sample dataset used to witness the split theorem. -/
def splitSamplesWitness : List ((Fin 64 → ℚ) × ℕ) :=
  [(fun _ => 0, 0), (fun _ => 1, 1)]

/-- A concrete shuffling of `splitSamplesWitness` (the two samples
swapped). -/
def splitShuffledWitness : List ((Fin 64 → ℚ) × ℕ) :=
  [(fun _ => 1, 1), (fun _ => 0, 0)]

/-! ## The unterminated string literal (autoencoder notebook)

The training cell of the autoencoder notebook ends in

    print("Training is done in " + str(tac-tic) + " sec.""

whose final `"` opens a string literal that is never closed, so Python
rejects the whole cell with a syntax error and the cell produces no
value.  String termination in this corpus depends only on the sequence
of quote characters on each line (no line uses escapes, triple quotes,
or `#` comments containing quotes), so each code line is embedded as its
sequence of quote characters and a small lexer decides whether a line
ends inside an open string literal. -/

/-- A quote character occurring on a Python source line: a double quote
or a single quote. -/
inductive QChar where
  | dq
  | sq
deriving DecidableEq

/-- One step of the string lexer: outside a string any quote opens one;
inside a string only the matching quote closes it. -/
def quoteStep : Option QChar → QChar → Option QChar
  | none, c => some c
  | some QChar.dq, QChar.dq => none
  | some QChar.dq, QChar.sq => some QChar.dq
  | some QChar.sq, QChar.sq => none
  | some QChar.sq, QChar.dq => some QChar.sq

/-- A line contains an unterminated string literal when the lexer ends
the line inside an open string. -/
def lineEndsInString (l : List QChar) : Bool :=
  (l.foldl quoteStep none).isSome

/-- A cell fails to compile (raises a syntax error, producing no value)
when some line of it has an unterminated string literal. -/
def cellHasUntermString (cell : List (List QChar)) : Bool :=
  cell.any lineEndsInString

/-- A run of `n` lines containing no quote characters at all. -/
def noQ (n : ℕ) : List (List QChar) := List.replicate n []

/-- The code cells of the dimensionality-reduction (PCA/t-SNE) notebook
as per-line quote sequences: imports; load; scale; the PCA cell whose
last two lines each hold one double-quoted string; the t-SNE cell,
likewise. -/
def pcaTsneNotebookCells : List (List (List QChar)) :=
  [noQ 7, noQ 5, noQ 3,
   noQ 5 ++ [[QChar.dq, QChar.dq], [QChar.dq, QChar.dq]],
   noQ 5 ++ [[QChar.dq, QChar.dq], [QChar.dq, QChar.dq]]]

/-- The code cells of the SOM notebook as per-line quote sequences: the
only quoted string is the single-quoted `'filename_weights'` in the
train/save cell; the final cell is empty. -/
def somNotebookCells : List (List (List QChar)) :=
  [noQ 5, noQ 2,
   noQ 2 ++ [[QChar.sq, QChar.sq]],
   noQ 2, noQ 2, noQ 2, []]

/-- The code cells of the K-Means notebook as per-line quote sequences:
the split cell prints two double-quoted headers; everything else is
quote-free. -/
def kmeansNotebookCells : List (List (List QChar)) :=
  [noQ 5, noQ 3,
   noQ 2 ++ [[QChar.dq, QChar.dq]] ++ noQ 3 ++
     [[QChar.dq, QChar.dq]] ++ noQ 2,
   noQ 3, noQ 3, noQ 1]

/-- The code cells of the autoencoder notebook as per-line quote
sequences.  In the training cell (index 5), after 18 quote-free lines
the `print("Training is done in " + str(tac-tic) + " sec.""` line
carries five double quotes — an odd count, so its last string literal is
unterminated — followed by a blank line, the two-quote
`print("last loss value: " + str(loss))` line and the quote-free
`plot_loss` line. -/
def autoencoderNotebookCells : List (List (List QChar)) :=
  [noQ 11, noQ 3, noQ 2, noQ 6, noQ 25,
   noQ 18 ++
     [[QChar.dq, QChar.dq, QChar.dq, QChar.dq, QChar.dq],
      [], [QChar.dq, QChar.dq], []],
   noQ 6, []]

/-- All four notebooks of the corpus with their code cells. -/
def notebookCorpus : List (String × List (List (List QChar))) :=
  [("handwritten_digit_clustering", kmeansNotebookCells),
   ("Handwritten Digits Clustering by SOM", somNotebookCells),
   ("dimensionality_reduction", pcaTsneNotebookCells),
   ("feature_learning_autoencoder", autoencoderNotebookCells)]

/-- The number of code cells in the whole corpus that contain an
unterminated string literal. -/
def untermStringCellCount : ℕ :=
  (notebookCorpus.map
    (fun nb => (nb.2.filter cellHasUntermString).length)).sum

/-! ## Wall-clock timing (PCA/t-SNE notebook and autoencoder notebook)

Three regions of the corpus are bracketed by `tic = time.time()` …
`tac = time.time()`: the `PCA(n_components=2).fit_transform(X)` call and
the `TSNE(n_components=2).fit_transform(X)` call in the
dimensionality-reduction notebook, and the whole `for epoch in
range(EPOCHS)` training loop in the autoencoder notebook.  No other
operation anywhere in the four notebooks is surrounded by a wall-clock
timer. -/

/-- The timer-bracketed regions of the corpus. -/
inductive TimedRegion where
  | pcaCall
  | tsneCall
  | autoencoderTrainingLoop
deriving DecidableEq

/-- Whether a timed region is a single library call (the training loop
is a repository-authored `for` loop over library calls, not itself a
library call). -/
def TimedRegion.isSingleLibraryCall : TimedRegion → Bool
  | .pcaCall => true
  | .tsneCall => true
  | .autoencoderTrainingLoop => false

/-- All regions bracketed by a `time.time()` pair anywhere in the
corpus, in source order. -/
def timedRegions : List TimedRegion :=
  [TimedRegion.pcaCall, TimedRegion.tsneCall,
   TimedRegion.autoencoderTrainingLoop]

/-! # Theorems -/

/-- C1: the network has exactly four linear layers, of widths
64→32, 32→10, 10→32 and 32→64, and `forward` evaluates them in sequence
with a rectified-linear activation after each of the four layers. -/
theorem autoencoder_four_relu_layers (net : Autoencoder) (x : Fin 64 → ℚ) :
    net.enc1.inFeatures = 64 ∧ net.enc1.outFeatures = 32 ∧
    net.enc2.inFeatures = 32 ∧ net.enc2.outFeatures = 10 ∧
    net.dec1.inFeatures = 10 ∧ net.dec1.outFeatures = 32 ∧
    net.dec2.inFeatures = 32 ∧ net.dec2.outFeatures = 64 ∧
    net.forward x =
      layerStep net.dec2 (layerStep net.dec1
        (layerStep net.enc2 (layerStep net.enc1 x))) :=
  ⟨rfl, rfl, rfl, rfl, rfl, rfl, rfl, rfl, rfl⟩

/-- C9: `features` computes exactly the encoder stage of `forward`:
`forward x` is the decoder stage (ReLU after `dec1`, then ReLU after
`dec2`) applied to `features x`, so the two methods perform identical
computations on the shared first two layers. -/
theorem autoencoder_features_shared_encoder_stage (net : Autoencoder)
    (x : Fin 64 → ℚ) :
    net.features x = layerStep net.enc2 (layerStep net.enc1 x) ∧
    net.forward x = layerStep net.dec2 (layerStep net.dec1 (net.features x)) :=
  ⟨rfl, rfl⟩

/-- C10: every component of `forward`'s output is non-negative, because
the final operation of `forward` is a rectified-linear activation. -/
theorem autoencoder_forward_nonneg (net : Autoencoder) (x : Fin 64 → ℚ)
    (i : Fin 64) :
    0 ≤ net.forward x i :=
  le_max_right _ 0

/-- Each iteration of the outer fold appends exactly one loss value. -/
theorem trainLoop_fold_length {S B : Type} (step : S → B → S × ℚ)
    (batches : List B) :
    ∀ (l : List ℕ) (s : S) (acc : List ℚ),
      (l.foldl
        (fun acc _ =>
          ((runEpoch step batches acc.1).1,
            acc.2 ++ [(runEpoch step batches acc.1).2]))
        (s, acc)).2.length = acc.length + l.length := by
  intro l
  induction l with
  | nil => intro s acc; simp
  | cons a t ih =>
      intro s acc
      simp only [List.foldl_cons, List.length_cons]
      rw [ih]
      simp [List.length_append]
      omega

/-- C2: the training loop uses the mean-squared error between the network
output and the input batch as its per-batch loss and the (abstract) Adam
update over the network parameters; the constants are `BS = 512`,
`EPOCHS = 300`, `LR = 1/1000`; and the outer loop appends exactly one
per-epoch averaged loss, so the recorded `train_loss` list has length
`EPOCHS`. -/
theorem trainLoop_records_one_loss_per_epoch
    (adamUpdate : Autoencoder → (Fin 64 → ℚ) → Autoencoder)
    (batches : List (Fin 64 → ℚ)) (net0 : Autoencoder) :
    BS = 512 ∧ EPOCHS = 300 ∧ LR = 1 / 1000 ∧
    (∀ net b, (adamBatchStep adamUpdate net b).2 =
      mseLoss (net.forward b) b) ∧
    (∀ s, (runEpoch (adamBatchStep adamUpdate) batches s).2 =
      (batches.foldl
        (fun acc b => ((adamBatchStep adamUpdate acc.1 b).1,
          acc.2 + (adamBatchStep adamUpdate acc.1 b).2)) (s, 0)).2 /
        (batches.length : ℚ)) ∧
    (trainLoop (adamBatchStep adamUpdate) batches net0).2.length = EPOCHS := by
  refine ⟨rfl, rfl, rfl, fun net b => rfl, fun s => rfl, ?_⟩
  unfold trainLoop
  rw [trainLoop_fold_length]
  simp

/-- The nearest-centroid label is always below the cluster count when the
cluster count is positive. -/
theorem nearestLabel_lt {k : ℕ} (hk : 0 < k) (cent : Fin k → Fin 64 → ℚ)
    (x : Fin 64 → ℚ) :
    nearestLabel cent x < k := by
  unfold nearestLabel
  cases h : (List.finRange k).foldl
      (fun best c =>
        match best with
        | none => some c
        | some b => if sqDist (cent c) x < sqDist (cent b) x then some c
            else some b)
      none with
  | none => exact hk
  | some c => exact c.isLt

/-- C3: the notebook's clustering model is configured with cluster count
10, 50 restarts and iteration cap 100, and calling `predict` on any
fitted state of this model with the held-out test set returns exactly one
integer label per test sample, each label lying in 0…9. -/
theorem kmeans_predict_one_label_per_sample
    (cent : Fin kmeans_obj.n_clusters → Fin 64 → ℚ)
    (X_test : List (Fin 64 → ℚ)) :
    kmeans_obj.n_clusters = 10 ∧ kmeans_obj.n_init = 50 ∧
    kmeans_obj.max_iter = 100 ∧
    (kmeansPredict cent X_test).length = X_test.length ∧
    ∀ l ∈ kmeansPredict cent X_test, l < 10 := by
  refine ⟨rfl, rfl, rfl, List.length_map _ _, ?_⟩
  intro l hl
  rcases List.mem_map.mp hl with ⟨x, _, rfl⟩
  exact nearestLabel_lt (by decide) cent x

/-- Witness for the K-Means theorem at a concrete fitted state and a
concrete test set. -/
theorem kmeans_predict_one_label_per_sample_witness :
    kmeans_obj.n_clusters = 10 ∧ kmeans_obj.n_init = 50 ∧
    kmeans_obj.max_iter = 100 ∧
    (kmeansPredict centWitness xTestWitness).length = xTestWitness.length ∧
    ∀ l ∈ kmeansPredict centWitness xTestWitness, l < 10 :=
  kmeans_predict_one_label_per_sample centWitness xTestWitness

/-- The coordinates of a best-matching node on the 20×20 grid lie within
the grid bounds. -/
theorem bmu_mem_grid (net : SomNet somGridHeight somGridWidth)
    (x : Fin 64 → ℚ) :
    (net.bmu x).1 < 20 ∧ (net.bmu x).2 < 20 := by
  unfold SomNet.bmu
  cases h : net.bestNode x with
  | none => exact ⟨by decide, by decide⟩
  | some c => exact ⟨c.1.isLt, c.2.isLt⟩

/-- C4: the SOM notebook uses a 20×20 grid with 64-dimensional node
weights, trains with learning rate 1/100 and epoch count 10000, performs
the repository's only weight-save call — to the file
`filename_weights` — after the training action, and `project` yields
exactly one in-grid 2-D node coordinate per input sample, for the
training and the test samples alike. -/
theorem som_train_save_project (net : SomNet somGridHeight somGridWidth)
    (samples : List (Fin 64 → ℚ)) :
    somGridHeight = 20 ∧ somGridWidth = 20 ∧
    somTrainingCell.head? = some (SomAction.train (1 / 100) 10000) ∧
    (somTrainingCell.filter SomAction.isSave) =
      [SomAction.save "filename_weights"] ∧
    somTrainingCell.getLast? = some (SomAction.save "filename_weights") ∧
    repoSaveCalls = ["filename_weights"] ∧
    (net.project samples).length = samples.length ∧
    ∀ p ∈ net.project samples, p.1 < 20 ∧ p.2 < 20 := by
  refine ⟨rfl, rfl, rfl, by decide, by decide, by decide,
    List.length_map _ _, ?_⟩
  intro p hp
  rcases List.mem_map.mp hp with ⟨x, _, rfl⟩
  exact bmu_mem_grid net x

/-- Witness for the SOM theorem at a concrete network state and sample. -/
theorem som_train_save_project_witness :
    somGridHeight = 20 ∧ somGridWidth = 20 ∧
    somTrainingCell.head? = some (SomAction.train (1 / 100) 10000) ∧
    (somTrainingCell.filter SomAction.isSave) =
      [SomAction.save "filename_weights"] ∧
    somTrainingCell.getLast? = some (SomAction.save "filename_weights") ∧
    repoSaveCalls = ["filename_weights"] ∧
    (somNetWitness.project somSamplesWitness).length =
      somSamplesWitness.length ∧
    ∀ p ∈ somNetWitness.project somSamplesWitness, p.1 < 20 ∧ p.2 < 20 :=
  som_train_save_project somNetWitness somSamplesWitness

/-- C5: the matrix passed to the 2-component PCA fit-transform is
exactly the z-scored dataset `scale(X)`, and the notebook's cell order
is load data, then preprocess, then call the fitted model, then plot
(every model call is preceded by the load and the preprocessing step and
followed by a plot). -/
theorem lab2_pca_input_is_scaled {M : Type} (scale : M → M)
    (pcaFitTransform tsneFitTransform : ℕ → M → M) (X0 : M) :
    (lab2Run scale pcaFitTransform tsneFitTransform X0).scaled = scale X0 ∧
    (lab2Run scale pcaFitTransform tsneFitTransform X0).reducedPCA =
      pcaFitTransform 2 (scale X0) ∧
    (lab2Run scale pcaFitTransform tsneFitTransform X0).reducedTSNE =
      tsneFitTransform 2 (scale X0) ∧
    lab2CellOps.findIdx (· = Lab2Op.loadData) <
      lab2CellOps.findIdx (· = Lab2Op.preprocess) ∧
    lab2CellOps.findIdx (· = Lab2Op.preprocess) <
      lab2CellOps.findIdx (· = Lab2Op.fitModel) ∧
    (∀ i, i < lab2CellOps.length →
      lab2CellOps.getD i Lab2Op.plot = Lab2Op.fitModel →
      lab2CellOps.getD (i + 1) Lab2Op.plot = Lab2Op.plot) :=
  ⟨rfl, rfl, rfl, by decide, by decide, by decide⟩

/-- Witness for the Lab 2 theorem at concrete scale/reduction functions
and a concrete input. -/
theorem lab2_pca_input_is_scaled_witness :
    (lab2Run lab2ScaleWitness lab2PcaWitness lab2TsneWitness 3).scaled =
      lab2ScaleWitness 3 ∧
    (lab2Run lab2ScaleWitness lab2PcaWitness lab2TsneWitness 3).reducedPCA =
      lab2PcaWitness 2 (lab2ScaleWitness 3) ∧
    (lab2Run lab2ScaleWitness lab2PcaWitness lab2TsneWitness 3).reducedTSNE =
      lab2TsneWitness 2 (lab2ScaleWitness 3) ∧
    lab2CellOps.findIdx (· = Lab2Op.loadData) <
      lab2CellOps.findIdx (· = Lab2Op.preprocess) ∧
    lab2CellOps.findIdx (· = Lab2Op.preprocess) <
      lab2CellOps.findIdx (· = Lab2Op.fitModel) ∧
    (∀ i, i < lab2CellOps.length →
      lab2CellOps.getD i Lab2Op.plot = Lab2Op.fitModel →
      lab2CellOps.getD (i + 1) Lab2Op.plot = Lab2Op.plot) :=
  lab2_pca_input_is_scaled lab2ScaleWitness lab2PcaWitness lab2TsneWitness 3

/-- C6: for every dataset of `n` label-paired samples and every test
size `t` with `1 ≤ t < n`, the split of any shuffling of the dataset
returns a test set of exactly `t` samples and a training set of exactly
`n − t` samples, and the concatenation of the two output sets is a
permutation of the input dataset (each feature row keeps its label,
since samples are the paired rows themselves). -/
theorem trainTestSplit_partitions {V : Type}
    (samples shuffled : List (V × ℕ)) (t : ℕ)
    (hperm : shuffled.Perm samples) (_h1 : 1 ≤ t)
    (ht : t < samples.length) :
    (trainTestSplit shuffled t).2.length = t ∧
    (trainTestSplit shuffled t).1.length = samples.length - t ∧
    ((trainTestSplit shuffled t).2 ++ (trainTestSplit shuffled t).1).Perm
      samples := by
  have hlen : shuffled.length = samples.length := hperm.length_eq
  refine ⟨?_, ?_, ?_⟩
  · simp [trainTestSplit, hlen]
    omega
  · simp [trainTestSplit, hlen]
  · rw [trainTestSplit]
    simpa [List.take_append_drop] using hperm

/-- Witness for the split theorem at a concrete two-sample dataset with
test size 1. -/
theorem trainTestSplit_partitions_witness :
    (trainTestSplit splitShuffledWitness 1).2.length = 1 ∧
    (trainTestSplit splitShuffledWitness 1).1.length =
      splitSamplesWitness.length - 1 ∧
    ((trainTestSplit splitShuffledWitness 1).2 ++
      (trainTestSplit splitShuffledWitness 1).1).Perm splitSamplesWitness :=
  trainTestSplit_partitions splitSamplesWitness splitShuffledWitness 1
    (List.Perm.swap _ _ _) (le_refl 1) (by simp [splitSamplesWitness])

/-- C7: exactly one cell in the whole corpus contains a literal
unterminated string — the autoencoder notebook's training cell (code
cell index 5) — so executing that cell raises a syntax error and
produces no value, while every cell of the other three notebooks lexes
cleanly. -/
theorem unique_unterminated_string_cell :
    untermStringCellCount = 1 ∧
    cellHasUntermString (autoencoderNotebookCells.getD 5 []) = true ∧
    (kmeansNotebookCells.filter cellHasUntermString).length = 0 ∧
    (somNotebookCells.filter cellHasUntermString).length = 0 ∧
    (pcaTsneNotebookCells.filter cellHasUntermString).length = 0 ∧
    (autoencoderNotebookCells.filter cellHasUntermString).length = 1 := by
  refine ⟨by decide, by decide, by decide, by decide, by decide, by decide⟩

/-- C8 counterexample: the claim that only two library calls are
surrounded by a wall-clock timer fails — the corpus has three
timer-bracketed regions, and the third, the autoencoder training loop,
is not one of the two library calls. -/
theorem timed_regions_not_exactly_two :
    timedRegions.length = 3 ∧
    TimedRegion.autoencoderTrainingLoop ∈ timedRegions ∧
    TimedRegion.autoencoderTrainingLoop.isSingleLibraryCall = false := by
  refine ⟨rfl, by decide, rfl⟩

/-- C8 amended: every timing measurement in the repository is a coarse
wall-clock elapsed time, taken around exactly three regions — the PCA
call, the t-SNE call, and the autoencoder training loop — of which
exactly the first two are single library calls; moreover the training
loop's timing lies in the one cell with the unterminated string, so it
can never execute. -/
theorem timed_regions_exactly_three :
    timedRegions = [TimedRegion.pcaCall, TimedRegion.tsneCall,
      TimedRegion.autoencoderTrainingLoop] ∧
    (timedRegions.filter TimedRegion.isSingleLibraryCall) =
      [TimedRegion.pcaCall, TimedRegion.tsneCall] ∧
    cellHasUntermString (autoencoderNotebookCells.getD 5 []) = true := by
  refine ⟨rfl, by decide, by decide⟩
